import Mathlib

/-!
Verification of the shotstack_proxy intermediary service.

This file gives a shallow embedding of the core components of the
repository — the duration estimator (`timeline_parser.py`), the token
ledger (`token_service.py`), the render worker (`worker.py`), the
submission endpoint (`routers/shotstack.py`), the destination service
(`destination_service.py`) and the transfer/sync poller
(`background_transfer.py`) — and proves properties about the embedded
definitions.

Modelling conventions:
* Python `int`/`float` values are modelled as `ℚ` (the properties proved
  here do not depend on binary floating-point rounding).
* Dynamically-typed dict fields are modelled by small inductive types
  whose constructors classify the values that the source code
  distinguishes (number, parseable numeric string, unparseable string,
  `None`, a value on which `float()` raises `TypeError`, ...).  A missing
  key is `Option.none`.
* A Python function that can raise is modelled in `Except Unit`; a
  caught exception corresponds to handling the `.error` case exactly
  where the source has its `try`/`except`.
* External I/O (the Supabase store, the Redis queue, the render engine,
  the GCS HEAD probe) is modelled by explicit state / outcome values
  passed into the embedded functions.
-/

set_option autoImplicit false

namespace ShotstackProxy

/-! ## Duration estimator (`app/services/timeline_parser.py`) -/

/-- Classification of a clip's `start` value as the two
`float(clip_start) if clip_start is not None else 0` coercions in
`extract_total_duration` observe it: a number, a numeric string (with
its parsed value), a non-numeric string (`ValueError`), `None`, or a
value on which `float()` raises `TypeError`. -/
inductive StartVal where
  | num (q : ℚ)
  | numStr (q : ℚ)
  | badStr
  | pyNone
  | other
  deriving DecidableEq

/-- Classification of a clip's `length` value.  The source treats the
strings `"auto"` and `"end"` specially; any other string either parses
with `float()` (`numStr`) or does not (`badStr`). -/
inductive LenVal where
  | num (q : ℚ)
  | strAuto
  | strEnd
  | numStr (q : ℚ)
  | badStr
  | pyNone
  | other
  deriving DecidableEq

/-- A clip's `asset.src` value, classified the way the `length="end"`
branch of `extract_total_duration` observes it: `aliasRef ref`
represents a string that starts with `"alias://"` and whose Python
`.replace("alias://", "")` equals `ref`; `plain` represents any string
not starting with `"alias://"`; `nonStr` is a non-string value (on
which `.startswith` raises `AttributeError`). -/
inductive SrcVal where
  | aliasRef (ref : String)
  | plain
  | nonStr
  deriving DecidableEq

/-- A clip's `asset` value: a dict (with optional `type` and `src`
keys) or a non-dict value, on which `.get` raises `AttributeError`.
Non-string `type` values are represented by any string different from
`"audio"`, since the source only compares `type` against `"audio"`. -/
inductive AssetVal where
  | notDict
  | dict (type : Option String) (src : Option SrcVal)
  deriving DecidableEq

/-- A timeline clip as read by `extract_total_duration`: the `alias`,
`start`, `length` and `asset` keys (a missing key is `none`).
`aliasName` models the `alias` key restricted to string values. -/
structure Clip where
  aliasName : Option String
  start : Option StartVal
  length : Option LenVal
  asset : Option AssetVal
  deriving DecidableEq

/-- An element of a track's `clips` list: a dict clip, or a non-dict
entry (skipped by both passes). -/
inductive ClipItem where
  | notDict
  | clip (c : Clip)
  deriving DecidableEq

/-- An element of the timeline's `tracks` list, classified the way both
passes of `extract_total_duration` classify it: not a dict, a dict
without a `clips` key, a dict whose `clips` is not a list, or a dict
with a `clips` list. -/
inductive TrackItem where
  | notDict
  | noClipsKey
  | clipsNotList
  | clips (cs : List ClipItem)
  deriving DecidableEq

/-- The argument of `extract_total_duration`, classified by the three
early-return guards of the source: not a dict (including `None`), a
dict without a `tracks` key, a dict whose `tracks` is not a list, or a
dict with a `tracks` list. -/
inductive Timeline where
  | notDict
  | noTracksKey
  | tracksNotList
  | tracks (ts : List TrackItem)
  deriving DecidableEq

/-- Python expression `float(clip_start) if clip_start is not None else 0`, with
`ValueError`/`TypeError` caught and replaced by `0`; a missing `start`
key defaults to `0` (`clip.get('start', 0)`). -/
def coerceStart : Option StartVal → ℚ
  | none => 0
  | some (.num q) => q
  | some (.numStr q) => q
  | some .badStr => 0
  | some .pyNone => 0
  | some .other => 0

/-- First pass of `extract_total_duration`, per clip: the alias map
entry contributed by one clip (`none` when the clip declares no usable
alias), or `.error` when the Python code would raise out of the pass
(`asset.get` on a non-dict asset).  Only the `duration` component of
the stored entry is read later, so the entry is modelled as
`aliasName × duration`.  A missing `length` defaults to `"auto"`
(`clip.get('length', 'auto')`); `float("end")` and `float(badStr)`
raise `ValueError`, and `float(other)` raises `TypeError`, all caught
by `except (ValueError, TypeError): continue`. -/
def aliasEntry (c : Clip) : Except Unit (Option (String × ℚ)) :=
  match c.aliasName with
  | none => .ok none
  | some a =>
    if a = "" then .ok none
    else
      match c.length.getD .strAuto with
      | .strAuto =>
        match c.asset with
        | none => .ok (some (a, 5))
        | some .notDict => .error ()
        | some (.dict ty _) => .ok (some (a, if ty.getD "" = "audio" then 10 else 5))
      | .num q => .ok (some (a, q))
      | .numStr q => .ok (some (a, q))
      | .strEnd => .ok none
      | .badStr => .ok none
      | .pyNone => .ok (some (a, (0 : ℚ)))
      | .other => .ok none

/-- First pass over the clips of one track.  New entries are prepended,
and `List.lookup` finds the first match, which reproduces the
last-write-wins overwrite of the Python dict `aliases_map`. -/
def clipsAliases : List ClipItem → List (String × ℚ) → Except Unit (List (String × ℚ))
  | [], acc => .ok acc
  | .notDict :: rest, acc => clipsAliases rest acc
  | .clip c :: rest, acc =>
    match aliasEntry c with
    | .error e => .error e
    | .ok none => clipsAliases rest acc
    | .ok (some p) => clipsAliases rest (p :: acc)

/-- First pass over all tracks (tracks that are not dicts, lack a
`clips` key, or whose `clips` is not a list are skipped). -/
def buildAliases : List TrackItem → List (String × ℚ) → Except Unit (List (String × ℚ))
  | [], acc => .ok acc
  | .notDict :: rest, acc => buildAliases rest acc
  | .noClipsKey :: rest, acc => buildAliases rest acc
  | .clipsNotList :: rest, acc => buildAliases rest acc
  | .clips cs :: rest, acc =>
    match clipsAliases cs acc with
    | .error e => .error e
    | .ok acc2 => buildAliases rest acc2

/-- Second pass of `extract_total_duration`, per clip: the clip's
effective end time.  A missing `length` defaults to the number `0`
(`clip.get('length', 0)`).  `length = "end"` resolves an `alias://`
reference through the alias map, falling back to `5`;
`length = "auto"`, an unparseable string length, or a `TypeError` from
`float()` also fall back to `5`.  `.error` models the uncaught
`AttributeError` when the asset is not a dict or its `src` is not a
string. -/
def clipEnd (am : List (String × ℚ)) (c : Clip) : Except Unit ℚ :=
  let cs := coerceStart c.start
  match c.length.getD (.num 0) with
  | .strEnd =>
    match c.asset with
    | none => .ok (cs + 5)
    | some .notDict => .error ()
    | some (.dict _ src) =>
      match src with
      | none => .ok (cs + 5)
      | some .nonStr => .error ()
      | some .plain => .ok (cs + 5)
      | some (.aliasRef ref) =>
        match am.lookup ref with
        | some d => .ok (cs + d)
        | none => .ok (cs + 5)
  | .strAuto => .ok (cs + 5)
  | .numStr q => .ok (cs + q)
  | .badStr => .ok (cs + 5)
  | .num q => .ok (cs + q)
  | .pyNone => .ok (cs + 0)
  | .other => .ok (cs + 5)

/-- Second pass over the clips of one track, accumulating
`max_duration`. -/
def clipsMax (am : List (String × ℚ)) : List ClipItem → ℚ → Except Unit ℚ
  | [], acc => .ok acc
  | .notDict :: rest, acc => clipsMax am rest acc
  | .clip c :: rest, acc =>
    match clipEnd am c with
    | .error e => .error e
    | .ok e => clipsMax am rest (max acc e)

/-- Second pass over all tracks. -/
def tracksMax (am : List (String × ℚ)) : List TrackItem → ℚ → Except Unit ℚ
  | [], acc => .ok acc
  | .notDict :: rest, acc => tracksMax am rest acc
  | .noClipsKey :: rest, acc => tracksMax am rest acc
  | .clipsNotList :: rest, acc => tracksMax am rest acc
  | .clips cs :: rest, acc =>
    match clipsMax am cs acc with
    | .error e => .error e
    | .ok acc2 => tracksMax am rest acc2

/-- Python `int()` on a float: truncation toward zero. -/
def pyInt (q : ℚ) : ℤ := if 0 ≤ q then ⌊q⌋ else ⌈q⌉

/-- Source function `TimelineParser.extract_total_duration`.  The three malformed-input
guards return `0`; otherwise both passes run, an uncaught exception in
them is answered by the `except` fallback `5`, and a normal result is
rounded up and clamped with
`max(int(m) + (1 if m != int(m) else 0), 1)`. -/
def extract_total_duration (t : Timeline) : ℤ :=
  match t with
  | .notDict => 0
  | .noTracksKey => 0
  | .tracksNotList => 0
  | .tracks ts =>
    match buildAliases ts [] with
    | .error _ => 5
    | .ok am =>
      match tracksMax am ts 0 with
      | .error _ => 5
      | .ok m =>
        let ip := pyInt m
        max (ip + (if (ip : ℚ) = m then 0 else 1)) 1

/-! ## Token ledger (`app/services/token_service.py`)

The Supabase store is modelled by `TokenStore` (the user's
`credit_balance` row and the `token_transactions` rows) together with
`StoreFaults`, which fixes the outcome of each I/O operation of one
service call: whether the balance `select` raises, and whether the
balance `update` / transaction `insert` succeed, return empty data, or
raise.  Exceptions propagate to the `try`/`except` of the source
function exactly as in the code. -/

/-- Outcome of one Supabase table operation as the service code
observes it: data returned, empty data returned, or an exception. -/
inductive StoreOp where
  | ok
  | emptyData
  | raises
  deriving DecidableEq

/-- I/O outcomes for the store operations of a single ledger call. -/
structure StoreFaults where
  readRaises : Bool
  updateOutcome : StoreOp
  insertOutcome : StoreOp
  deriving DecidableEq

/-- A `token_transactions` row (fields that the code writes and that
the audit-trail invariant reads). -/
structure Txn where
  amount : ℤ
  txnType : String
  balanceBefore : ℤ
  balanceAfter : ℤ
  deriving DecidableEq

/-- The per-user slice of the Supabase store: the `credit_balance` row
(`none` when the user has no row) and the transaction log. -/
structure TokenStore where
  balanceRow : Option ℤ
  txns : List Txn
  deriving DecidableEq

/-- Source method `TokenService.get_user_tokens`: returns the row's balance, `0`
when the user has no row, and `0` when the select raises (the
exception is caught and logged). -/
def get_user_tokens (f : StoreFaults) (s : TokenStore) : ℤ :=
  if f.readRaises then 0 else s.balanceRow.getD 0

/-- Source method `TokenService.consume_tokens`: read the balance, fail (`false`)
when it is below `amount`, otherwise update the row and insert a
consumption transaction.  An update that raises or returns empty data
yields `false` with no change; an insert that returns empty data is
only logged and the call still returns `true`; an insert that raises
is caught by the outer `except` and yields `false`, with the already
committed balance update kept.  An update against a missing row
returns empty data. -/
def consume_tokens (f : StoreFaults) (s : TokenStore) (amount : ℤ) :
    Bool × TokenStore :=
  let current := get_user_tokens f s
  if current < amount then (false, s)
  else
    let newBalance := current - amount
    match f.updateOutcome with
    | .raises => (false, s)
    | .emptyData => (false, s)
    | .ok =>
      match s.balanceRow with
      | none => (false, s)
      | some _ =>
        let s1 : TokenStore := { s with balanceRow := some newBalance }
        match f.insertOutcome with
        | .raises => (false, s1)
        | .emptyData => (true, s1)
        | .ok =>
          (true, { s1 with
            txns := s1.txns ++ [⟨-amount, "consumption", current, newBalance⟩] })

/-- Source method `TokenService.add_tokens`: read the balance (defaulting to `0`),
update the row to `current + amount` and insert a transaction of type
`txnType`.  Failure handling mirrors `consume_tokens`. -/
def add_tokens (f : StoreFaults) (s : TokenStore) (amount : ℤ) (txnType : String) :
    Bool × TokenStore :=
  let current := get_user_tokens f s
  let newBalance := current + amount
  match f.updateOutcome with
  | .raises => (false, s)
  | .emptyData => (false, s)
  | .ok =>
    match s.balanceRow with
    | none => (false, s)
    | some _ =>
      let s1 : TokenStore := { s with balanceRow := some newBalance }
      match f.insertOutcome with
      | .raises => (false, s1)
      | .emptyData => (true, s1)
      | .ok =>
        (true, { s1 with
          txns := s1.txns ++ [⟨amount, txnType, current, newBalance⟩] })

/-- Source method `TokenService.calculate_tokens_for_duration`:
`max(1, math.ceil(duration_seconds / 60))`. -/
def calculate_tokens_for_duration (durationSeconds : ℤ) : ℤ :=
  max 1 ⌈(durationSeconds : ℚ) / 60⌉

/-! ## Render worker (`worker.py`) -/

/-- Source function `refund_tokens_for_failed_job` (worker.py): delegates to
`TokenService.add_tokens` with transaction type `"refund"`; its own
`try`/`except` only turns an exception into `false`, and `add_tokens`
already returns `Bool`. -/
def refund_tokens_for_failed_job (f : StoreFaults) (s : TokenStore) (amount : ℤ) :
    Bool × TokenStore :=
  add_tokens f s amount "refund"

/-- What the Shotstack `/render` call produced, as classified by
`render_video_job`: an HTTP response with a status code, an
`httpx.TimeoutException`, or any other exception raised before a
success response. -/
inductive EngineOutcome where
  | response (statusCode : Nat) (renderId : Option String)
  | timeoutExc
  | otherExc
  deriving DecidableEq

/-- The fields of the queued job payload that `render_video_job`
reads.  `hasTimeline`/`hasOutput` model the truthiness check
`if not timeline or not output`; `tokensConsumed` is the
`tokens_consumed` entry (`job_data.get('tokens_consumed', 1)`). -/
structure JobData where
  hasTimeline : Bool
  hasOutput : Bool
  userId : String
  tokensConsumed : Option ℤ
  deriving DecidableEq

/-- The caller-observable part of a worker job result dict. -/
structure WorkerResult where
  status : String
  tokensRefunded : ℤ
  refundStatus : Option String
  deriving DecidableEq

/-- The failure path shared by the non-201, timeout and generic
exception handlers of `render_video_job`: refund
`job_data.get('tokens_consumed', 1)` and report the refund outcome.
The Supabase status sync in these handlers has its exceptions
swallowed and does not touch the ledger, so it is not modelled. -/
def workerFailPath (jd : JobData) (f : StoreFaults) (s : TokenStore) :
    WorkerResult × TokenStore :=
  let amt := jd.tokensConsumed.getD 1
  let r := refund_tokens_for_failed_job f s amt
  ({ status := "failed",
     tokensRefunded := if r.1 then amt else 0,
     refundStatus := some (if r.1 then "success" else "failed") }, r.2)

/-- Source function `render_video_job`: validate the payload (missing timeline/output
raises `ValueError`, caught by the generic handler), call the render
engine, and classify the outcome.  A 201 response is the success path
(no ledger effect); any other status code, a timeout, or any other
exception runs the refund path. -/
def render_video_job (jd : JobData) (eo : EngineOutcome) (f : StoreFaults)
    (s : TokenStore) : WorkerResult × TokenStore :=
  if ¬jd.hasTimeline ∨ ¬jd.hasOutput then workerFailPath jd f s
  else
    match eo with
    | .response statusCode _ =>
      if statusCode = 201 then
        ({ status := "success", tokensRefunded := 0, refundStatus := none }, s)
      else workerFailPath jd f s
    | .timeoutExc => workerFailPath jd f s
    | .otherExc => workerFailPath jd f s

/-- A render-engine outcome that the worker classifies as failure. -/
def engineFailed (eo : EngineOutcome) : Bool :=
  match eo with
  | .response statusCode _ => statusCode ≠ 201
  | .timeoutExc => true
  | .otherExc => true

/-- Fault-free store I/O. -/
def noFaults : StoreFaults := ⟨false, .ok, .ok⟩

/-! ## Destination service (`app/services/destination_service.py`) -/

/-- A destination entry as the code observes it: its `provider` key
(`none` when absent) and the `exclude` flag.  Other option fields are
never read by the code under verification. -/
structure Destination where
  provider : Option String
  exclude : Bool
  deriving DecidableEq

/-- Source method `DestinationService.get_default_destinations`: returns only the
Shotstack CDN destination (the source's comment records that custom
destinations are not supported and GCS is populated by the post-render
transfer instead).  The `user_id`/`job_id` arguments are accepted and
unused, as in the source. -/
def get_default_destinations (_userId _jobId : Option String) : List Destination :=
  [{ provider := some "shotstack", exclude := false }]

/-- The destination resolution block of `create_render`
(`routers/shotstack.py` lines 260-275): missing or empty (falsy)
caller destinations are replaced by the defaults; otherwise a GCS
destination is appended from the defaults only when the caller list
has none tagged `googlecloudstorage` (the filter over the defaults). -/
def resolve_destinations (callerDests : Option (List Destination))
    (userId jobId : String) : List Destination :=
  match callerDests with
  | none => get_default_destinations (some userId) (some jobId)
  | some [] => get_default_destinations (some userId) (some jobId)
  | some ds =>
    if ds.any (fun d => d.provider == some "googlecloudstorage") then ds
    else
      ds ++ (get_default_destinations (some userId) (some jobId)).filter
        (fun d => d.provider == some "googlecloudstorage")

/-- The timestamp components that `_generate_gcs_path` reads from
`datetime.utcnow()`: `strftime("%Y")`, `strftime("%m")` and the
`strftime('%Y%m%d_%H%M%S')` stamp used when no job id is given.  The
three fields are renderings of one instant. -/
structure UtcNow where
  yearStr : String
  monthStr : String
  stampStr : String
  deriving DecidableEq

/-- Python `sep.join(parts)`. -/
def pyJoin (sep : String) : List String → String
  | [] => ""
  | [p] => p
  | p :: q :: rest => p ++ sep ++ pyJoin sep (q :: rest)

/-- Source method `DestinationService._generate_gcs_path`: builds
`{prefix}/{year}/{month}[/user_{user_id}]/video_{job_id}`, using the
current UTC year and month, skipping the user segment when `user_id`
is falsy and falling back to a timestamp filename when `job_id` is
falsy.  `gcsPathPfx` is the configured `GCS_PATH_PREFIX`
(default `"videos"`). -/
def generate_gcs_path (gcsPathPfx : String) (now : UtcNow)
    (userId jobId : Option String) : String :=
  let parts := [gcsPathPfx, now.yearStr, now.monthStr]
  let parts :=
    match userId with
    | none => parts
    | some u => if u = "" then parts else parts ++ ["user_" ++ u]
  let filename :=
    match jobId with
    | none => "video_" ++ now.stampStr
    | some j => if j = "" then "video_" ++ now.stampStr else "video_" ++ j
  pyJoin "/" (parts ++ [filename])

/-- Source method `DestinationService.get_gcs_public_url`:
`https://storage.googleapis.com/{bucket}/{path}.mp4`, with the
configured bucket (`gcsBucketCfg`, default `"ffmpeg-api"`) used when
the `bucket` argument is falsy. -/
def get_gcs_public_url (gcsBucketCfg : String) (gcsPath : String)
    (bucket : Option String) : String :=
  let bucketName :=
    match bucket with
    | none => gcsBucketCfg
    | some b => if b = "" then gcsBucketCfg else b
  "https://storage.googleapis.com/" ++ bucketName ++ "/" ++ gcsPath ++ ".mp4"

/-! ## Job submission (`routers/shotstack.py`, `create_render`) -/

/-- A job sitting in the Redis queue, with the payload fields the
claims observe: the idempotency key (`_job_id`), the resolved
destinations placed in the output config, and `tokens_consumed`. -/
structure QueuedJob where
  jobId : String
  destinations : List Destination
  tokensConsumed : ℤ
  deriving DecidableEq

/-- The job queue, keyed by job id. -/
structure Queue where
  jobs : List QueuedJob
  deriving DecidableEq

/-- Modelled from the spec: the Job Queue capability
`enqueue(function_name, payload, idempotency_key, delay?) -> handle`
of an external queue library (arq over Redis, not part of the
repository source).  Enqueueing under an idempotency key that is
already queued is collapsed: no second job is stored and no handle is
returned. -/
def enqueue_job (q : Queue) (j : QueuedJob) : Option String × Queue :=
  if q.jobs.any (fun k => k.jobId == j.jobId) then (none, q)
  else (some j.jobId, { jobs := q.jobs ++ [j] })

/-- The observable response of `create_render`: the 402
insufficient-tokens rejection, or the 202 acceptance with the job id
and the tokens charged. -/
inductive CreateResp where
  | insufficientTokens
  | accepted (jobId : String) (estimatedTokens : ℤ)
  deriving DecidableEq

/-- Source handler `create_render` (`routers/shotstack.py`): read the balance,
compute the duration-based token price, reject with 402 when the
balance is short; otherwise resolve destinations, enqueue the job
payload under the generated job id (the enqueue result is not
inspected), and then consume the tokens unconditionally (the consume
result is not inspected either).  The `uuid.uuid4()` job id is an
input of the model; the Supabase usage log is a separate store and is
not modelled. -/
def create_render (f : StoreFaults) (s : TokenStore) (q : Queue)
    (userId jobId : String) (timeline : Timeline)
    (callerDests : Option (List Destination)) :
    CreateResp × TokenStore × Queue :=
  let userTokens := get_user_tokens f s
  let durationSeconds := extract_total_duration timeline
  let tokensNeeded := calculate_tokens_for_duration durationSeconds
  if userTokens < tokensNeeded then (.insufficientTokens, s, q)
  else
    let dests := resolve_destinations callerDests userId jobId
    let q1 := (enqueue_job q ⟨jobId, dests, tokensNeeded⟩).2
    let s1 := (consume_tokens f s tokensNeeded).2
    (.accepted jobId tokensNeeded, s1, q1)

/-! ## Transfer/sync state machine
(`app/services/background_transfer.py`) -/

/-- Python truthiness of an optional string field. -/
def truthy : Option String → Bool
  | none => false
  | some s => s ≠ ""

/-- The backoff delay computed by `reschedule_auto_transfer` from the
*next* attempt number it is called with:
`next_attempt <= 5 → 30`, `next_attempt <= 10 → 60`, else `120`. -/
def reschedule_delay (nextAttempt : Nat) : Nat :=
  if nextAttempt ≤ 5 then 30 else if nextAttempt ≤ 10 then 60 else 120

/-- External-world inputs of one `auto_transfer_when_ready_job`
invocation: the transfer-data fields it validates, the render engine's
status response, the GCS HEAD probe outcome (`gcsHeadOk` is true only
when the probe returned 200; a non-200 or an exception both fall
through to the transfer), whether the download/upload succeeds, whether
the Supabase URL write succeeds, and the current UTC time.  The
`transfer_to_gcs` call inside the same invocation reuses `now` (the
source calls `utcnow` again there; the two reads belong to the same
invocation). -/
structure TransferEnv where
  shotstackRenderId : Option String
  origJobId : Option String
  userId : String
  statusCode : Nat
  renderStatus : String
  renderUrl : Option String
  gcsHeadOk : Bool
  transferOk : Bool
  dbWriteOk : Bool
  now : UtcNow
  deriving DecidableEq

/-- The observable outcome of one `auto_transfer_when_ready_job`
invocation: the result dict's `status` field, together with the queue
effect of a reschedule (`nextAttempt`, `delay`), and for `completed`
the GCS URL, whether the expensive download/upload was performed, and
whether the URL was written back to Supabase. -/
inductive TransferResult where
  | failed (message : String)
  | timeout
  | rescheduled (nextAttempt delay : Nat)
  | completed (gcsUrl : String) (transferPerformed : Bool) (urlWritten : Bool)
  deriving DecidableEq

/-- Source job `auto_transfer_when_ready_job` with `max_attempts = 20`:
validation failure or a missing URL in a done render raise
`ValueError` into the generic handler (`failed`); a non-200 status
query reschedules below the attempt cap and otherwise fails; status
`"done"` probes GCS and either completes without copying (HEAD hit)
or transfers and completes, failing on a transfer exception; the known
in-progress statuses reschedule below the cap and otherwise time out;
status `"failed"` fails; any other status reschedules below the cap
and otherwise *fails* (not times out). -/
def auto_transfer_when_ready_job (gcsPathPfx gcsBucketCfg : String)
    (env : TransferEnv) (attempt : Nat) : TransferResult :=
  if ¬truthy env.shotstackRenderId ∨ ¬truthy env.origJobId then
    .failed "Missing required transfer data"
  else if env.statusCode ≠ 200 then
    if attempt ≥ 20 then .failed "Max attempts reached, Shotstack API error"
    else .rescheduled (attempt + 1) (reschedule_delay (attempt + 1))
  else if env.renderStatus = "done" then
    if ¬truthy env.renderUrl then .failed "No Shotstack URL found in completed render"
    else
      let path := generate_gcs_path gcsPathPfx env.now (some env.userId) env.origJobId
      let url := get_gcs_public_url gcsBucketCfg path none
      if env.gcsHeadOk then .completed url false env.dbWriteOk
      else if env.transferOk then .completed url true env.dbWriteOk
      else .failed "transfer error"
  else if env.renderStatus = "queued" ∨ env.renderStatus = "rendering" ∨
      env.renderStatus = "processing" then
    if attempt ≥ 20 then .timeout
    else .rescheduled (attempt + 1) (reschedule_delay (attempt + 1))
  else if env.renderStatus = "failed" then .failed "Shotstack render failed"
  else
    if attempt ≥ 20 then .failed "Unknown status after max attempts"
    else .rescheduled (attempt + 1) (reschedule_delay (attempt + 1))

end ShotstackProxy

namespace ShotstackProxy

/-! Sanity checks for the estimator on the spec's concrete examples. -/

example :
    extract_total_duration (.tracks [.clips [.clip
      { aliasName := none, start := some (.num 0), length := some (.num 30),
        asset := some (.dict (some "title") none) }]]) = 30 := by
  simp only [extract_total_duration, buildAliases, clipsAliases, aliasEntry,
    tracksMax, clipsMax, clipEnd, coerceStart, pyInt, Option.getD]
  norm_num

example :
    extract_total_duration (.tracks [.clips [
      .clip { aliasName := some "a", start := some (.num 0), length := some (.num 10),
              asset := some (.dict (some "video") none) },
      .clip { aliasName := none, start := some (.num 5), length := some .strEnd,
              asset := some (.dict (some "video") (some (.aliasRef "a"))) }]]) = 15 := by
  simp only [extract_total_duration, buildAliases, clipsAliases, aliasEntry,
    tracksMax, clipsMax, clipEnd, coerceStart, pyInt, Option.getD, List.lookup,
    String.reduceEq, reduceIte, String.reduceBEq]
  norm_num

/-! ## Claim C3 — malformed-timeline fallback -/

/-- Claim C3 counterexample: on a dict timeline with no `tracks` key
(and likewise on a non-dict timeline and on a non-list `tracks`),
`extract_total_duration` returns `0`, not a strictly positive
fallback. -/
theorem malformed_timeline_zero_cex :
    extract_total_duration .noTracksKey = 0 ∧
    extract_total_duration .notDict = 0 ∧
    extract_total_duration .tracksNotList = 0 :=
  ⟨rfl, rfl, rfl⟩

/-- Claim C3 (amended): for every malformed timeline input — not a
dict, a dict with no `tracks` key, or `tracks` not a list —
`extract_total_duration` returns `0` without raising to the caller;
the strictly positive fallback `5` is reserved for the internal
exception path. -/
theorem malformed_timeline_returns_zero (t : Timeline)
    (h : t = .notDict ∨ t = .noTracksKey ∨ t = .tracksNotList) :
    extract_total_duration t = 0 := by
  rcases h with h | h | h <;> subst h <;> rfl

/-- Claim C3 witness: the amended theorem at the missing-`tracks`
input. -/
theorem malformed_timeline_returns_zero_witness :
    extract_total_duration .noTracksKey = 0 :=
  malformed_timeline_returns_zero .noTracksKey (Or.inr (Or.inl rfl))

/-! ## Claim C10 — minimum one second for well-formed timelines -/

/-- Claim C10: for every timeline that is a dict whose `tracks` value
is a list (including an empty list or tracks with zero-length clips),
`extract_total_duration` returns at least `1`: the computed maximum is
clamped with `max(..., 1)`, and the internal exception fallback `5` is
also positive. -/
theorem wellformed_duration_at_least_one (ts : List TrackItem) :
    1 ≤ extract_total_duration (.tracks ts) := by
  simp only [extract_total_duration]
  rcases hb : buildAliases ts [] with e | am
  · norm_num
  · dsimp only
    rcases ht : tracksMax am ts 0 with e | m
    · norm_num
    · dsimp only
      exact le_max_right _ 1

/-! ## Claim C7 — owned-storage destination injection -/

/-- Claim C7 counterexample: a submission with no caller-supplied
destinations gets exactly the Shotstack CDN destination; no
destination tagged `googlecloudstorage` is in the resolved list. -/
theorem default_destinations_no_gcs_cex :
    resolve_destinations none "user1" "job1" =
      [{ provider := some "shotstack", exclude := false }] ∧
    (resolve_destinations none "user1" "job1").any
      (fun d => d.provider == some "googlecloudstorage") = false := by
  constructor <;> rfl

/-- Claim C7 (amended): the system never injects an owned-storage
(GCS) destination into the job's output configuration: the defaults
used when the caller supplies none consist of the Shotstack CDN
destination only, and a caller-supplied non-empty destination list is
passed through unchanged (the GCS filter over the defaults adds
nothing), whether or not it contains a `googlecloudstorage`
destination. -/
theorem destinations_passthrough (userId jobId : String)
    (ds : List Destination) (h : ds ≠ []) :
    resolve_destinations (some ds) userId jobId = ds ∧
    resolve_destinations none userId jobId =
      [{ provider := some "shotstack", exclude := false }] := by
  refine ⟨?_, rfl⟩
  match ds, h with
  | d :: rest, _ =>
    unfold resolve_destinations
    by_cases hg : ((d :: rest).any fun k => k.provider == some "googlecloudstorage") = true
    · simp [hg]
    · simp only [Bool.not_eq_true] at hg
      simp [hg, get_default_destinations, List.filter]

/-- Claim C7 witness: the amended theorem at a caller-supplied S3
destination list. -/
theorem destinations_passthrough_witness :
    resolve_destinations (some [{ provider := some "s3", exclude := false }]) "u" "j" =
      [{ provider := some "s3", exclude := false }] ∧
    resolve_destinations none "u" "j" =
      [{ provider := some "shotstack", exclude := false }] :=
  destinations_passthrough "u" "j" [{ provider := some "s3", exclude := false }]
    (by simp)

/-! ## Claim C9 — destination-path determinism -/

/-- Claim C9 counterexample: the destination path is not a function of
(user id, job id) alone — two computations for the same user and job
in different UTC months yield different paths. -/
theorem gcs_path_time_dependent_cex :
    generate_gcs_path "videos" ⟨"2025", "01", "t"⟩ (some "u") (some "j") ≠
      generate_gcs_path "videos" ⟨"2025", "02", "t"⟩ (some "u") (some "j") := by
  decide

/-- Claim C9 (amended): the destination path is a deterministic
function of the configured path prefix, the UTC year and month of the
computation, the user id and the job id: two computations for a
(truthy) job id agree whenever they fall in the same calendar month,
regardless of day or time of day, and the derived public URL then
agrees as well. -/
theorem gcs_path_deterministic_within_month (pfx bkt : String)
    (n1 n2 : UtcNow) (u : Option String) (j : String) (hj : j ≠ "")
    (hy : n1.yearStr = n2.yearStr) (hm : n1.monthStr = n2.monthStr) :
    generate_gcs_path pfx n1 u (some j) = generate_gcs_path pfx n2 u (some j) ∧
    get_gcs_public_url bkt (generate_gcs_path pfx n1 u (some j)) none =
      get_gcs_public_url bkt (generate_gcs_path pfx n2 u (some j)) none := by
  obtain ⟨y1, m1, s1⟩ := n1
  obtain ⟨y2, m2, s2⟩ := n2
  dsimp only at hy hm
  subst hy
  subst hm
  have hpath : generate_gcs_path pfx ⟨y1, m1, s1⟩ u (some j) =
      generate_gcs_path pfx ⟨y1, m1, s2⟩ u (some j) := by
    unfold generate_gcs_path
    simp [hj]
  exact ⟨hpath, by rw [hpath]⟩

/-- Claim C9 witness: the amended theorem at two instants of the same
month with different timestamps. -/
theorem gcs_path_deterministic_within_month_witness :
    generate_gcs_path "videos" ⟨"2025", "01", "20250101_080000"⟩ (some "u") (some "j") =
      generate_gcs_path "videos" ⟨"2025", "01", "20250115_230000"⟩ (some "u") (some "j") ∧
    get_gcs_public_url "ffmpeg-api"
        (generate_gcs_path "videos" ⟨"2025", "01", "20250101_080000"⟩ (some "u") (some "j")) none =
      get_gcs_public_url "ffmpeg-api"
        (generate_gcs_path "videos" ⟨"2025", "01", "20250115_230000"⟩ (some "u") (some "j")) none :=
  gcs_path_deterministic_within_month "videos" "ffmpeg-api" _ _ (some "u") "j"
    (by decide) rfl rfl

/-! ## Claim C4 — backoff schedule -/

/-- Claim C4 counterexample: an in-progress render at attempt 5
reschedules with a 60-second delay, not the 30 seconds the claim
assigns to attempts 1–5 (the code computes the delay from the *next*
attempt number, here 6). -/
theorem backoff_attempt_five_cex :
    auto_transfer_when_ready_job "videos" "ffmpeg-api"
      ⟨some "r1", some "j1", "u1", 200, "rendering", some "url", false, false, false,
        ⟨"2025", "01", "t"⟩⟩ 5 = .rescheduled 6 60 ∧
    auto_transfer_when_ready_job "videos" "ffmpeg-api"
      ⟨some "r1", some "j1", "u1", 200, "rendering", some "url", false, false, false,
        ⟨"2025", "01", "t"⟩⟩ 5 ≠ .rescheduled 6 30 := by
  constructor <;> decide

/-- Claim C4 (amended): the reschedule delay is computed from the next
attempt number `n + 1`: a poller invocation at in-progress attempt
`n ≤ 4` reschedules after 30 s, at `5 ≤ n ≤ 9` after 60 s, at
`10 ≤ n ≤ 19` after 120 s (equivalently, scheduled attempts 1–5 / 6–10
/ 11+ are preceded by 30 s / 60 s / 120 s waits), and an in-progress
render at attempt 20 or beyond transitions to `timeout` instead of
rescheduling. -/
theorem backoff_schedule (pfx bkt : String) (env : TransferEnv) (n : Nat)
    (hid : truthy env.shotstackRenderId = true)
    (hoj : truthy env.origJobId = true)
    (hsc : env.statusCode = 200)
    (hst : env.renderStatus = "queued" ∨ env.renderStatus = "rendering" ∨
      env.renderStatus = "processing") :
    (n ≤ 4 → auto_transfer_when_ready_job pfx bkt env n = .rescheduled (n + 1) 30) ∧
    (5 ≤ n → n ≤ 9 →
      auto_transfer_when_ready_job pfx bkt env n = .rescheduled (n + 1) 60) ∧
    (10 ≤ n → n ≤ 19 →
      auto_transfer_when_ready_job pfx bkt env n = .rescheduled (n + 1) 120) ∧
    (20 ≤ n → auto_transfer_when_ready_job pfx bkt env n = .timeout) := by
  have hdone : env.renderStatus ≠ "done" := by
    rcases hst with h | h | h <;> rw [h] <;> decide
  have hmain : auto_transfer_when_ready_job pfx bkt env n =
      if n ≥ 20 then .timeout
      else .rescheduled (n + 1) (reschedule_delay (n + 1)) := by
    unfold auto_transfer_when_ready_job
    rw [hid, hoj, hsc]
    simp [hdone, hst]
  refine ⟨fun h4 => ?_, fun h5 h9 => ?_, fun h10 h19 => ?_, fun h20 => ?_⟩
  · rw [hmain, if_neg (by omega), reschedule_delay, if_pos (by omega)]
  · rw [hmain, if_neg (by omega), reschedule_delay, if_neg (by omega),
      if_pos (by omega)]
  · rw [hmain, if_neg (by omega), reschedule_delay, if_neg (by omega),
      if_neg (by omega)]
  · rw [hmain, if_pos (by omega)]

/-- Claim C4 witness: the amended schedule at attempts 3, 7, 15 and
21 for a concrete in-progress environment. -/
theorem backoff_schedule_witness :
    auto_transfer_when_ready_job "videos" "ffmpeg-api"
      ⟨some "r1", some "j1", "u1", 200, "queued", some "url", false, false, false,
        ⟨"2025", "01", "t"⟩⟩ 3 = .rescheduled 4 30 ∧
    auto_transfer_when_ready_job "videos" "ffmpeg-api"
      ⟨some "r1", some "j1", "u1", 200, "queued", some "url", false, false, false,
        ⟨"2025", "01", "t"⟩⟩ 7 = .rescheduled 8 60 ∧
    auto_transfer_when_ready_job "videos" "ffmpeg-api"
      ⟨some "r1", some "j1", "u1", 200, "queued", some "url", false, false, false,
        ⟨"2025", "01", "t"⟩⟩ 15 = .rescheduled 16 120 ∧
    auto_transfer_when_ready_job "videos" "ffmpeg-api"
      ⟨some "r1", some "j1", "u1", 200, "queued", some "url", false, false, false,
        ⟨"2025", "01", "t"⟩⟩ 21 = .timeout :=
  ⟨(backoff_schedule _ _ _ 3 (by decide) (by decide) rfl (Or.inl rfl)).1 (by omega),
   (backoff_schedule _ _ _ 7 (by decide) (by decide) rfl (Or.inl rfl)).2.1
     (by omega) (by omega),
   (backoff_schedule _ _ _ 15 (by decide) (by decide) rfl (Or.inl rfl)).2.2.1
     (by omega) (by omega),
   (backoff_schedule _ _ _ 21 (by decide) (by decide) rfl (Or.inl rfl)).2.2.2
     (by omega)⟩

/-! ## Claim C5 — transfer idempotence on a HEAD hit -/

/-- Claim C5: when the render status is `"done"` and the HEAD probe at
the computed destination path reports the object present, the machine
completes directly — no download/upload is performed
(`transferPerformed = false`) — and the destination URL derived from
the computed path is written back to the system-of-record. -/
theorem transfer_skips_copy_when_present (pfx bkt : String)
    (env : TransferEnv) (n : Nat)
    (hid : truthy env.shotstackRenderId = true)
    (hoj : truthy env.origJobId = true)
    (hsc : env.statusCode = 200)
    (hst : env.renderStatus = "done")
    (hurl : truthy env.renderUrl = true)
    (hhead : env.gcsHeadOk = true)
    (hdb : env.dbWriteOk = true) :
    auto_transfer_when_ready_job pfx bkt env n =
      .completed
        (get_gcs_public_url bkt
          (generate_gcs_path pfx env.now (some env.userId) env.origJobId) none)
        false true := by
  unfold auto_transfer_when_ready_job
  rw [hid, hoj, hsc, hst, hurl, hhead, hdb]
  simp

/-- Claim C5 witness: a concrete done render whose destination object
already exists completes without copying at the deterministic URL. -/
theorem transfer_skips_copy_when_present_witness :
    auto_transfer_when_ready_job "videos" "ffmpeg-api"
      ⟨some "r1", some "j1", "u1", 200, "done", some "http://cdn/x.mp4", true, false, true,
        ⟨"2025", "01", "t"⟩⟩ 2 =
      .completed "https://storage.googleapis.com/ffmpeg-api/videos/2025/01/user_u1/video_j1.mp4"
        false true :=
  (transfer_skips_copy_when_present "videos" "ffmpeg-api" _ 2 (by decide) (by decide)
    rfl rfl (by decide) rfl rfl).trans (by decide)

/-! ## Claim C6 — unknown render status handling -/

/-- Claim C6 counterexample: an unrecognized render status at the
attempt cap transitions to `failed`, not to `timeout` as the claim
states. -/
theorem unknown_status_exhaustion_cex :
    auto_transfer_when_ready_job "videos" "ffmpeg-api"
      ⟨some "r1", some "j1", "u1", 200, "exporting", some "url", false, false, false,
        ⟨"2025", "01", "t"⟩⟩ 20 = .failed "Unknown status after max attempts" ∧
    auto_transfer_when_ready_job "videos" "ffmpeg-api"
      ⟨some "r1", some "j1", "u1", 200, "exporting", some "url", false, false, false,
        ⟨"2025", "01", "t"⟩⟩ 20 ≠ .timeout := by
  constructor <;> decide

/-- Claim C6 (amended): an unrecognized render status reschedules with
the same backoff as a known in-progress status while the attempt count
is below the maximum, but when attempts are exhausted it transitions to
`failed`, not `timeout`. -/
theorem unknown_status_retry_then_failed (pfx bkt : String)
    (env : TransferEnv) (n : Nat)
    (hid : truthy env.shotstackRenderId = true)
    (hoj : truthy env.origJobId = true)
    (hsc : env.statusCode = 200)
    (hdone : env.renderStatus ≠ "done")
    (hq : env.renderStatus ≠ "queued")
    (hr : env.renderStatus ≠ "rendering")
    (hp : env.renderStatus ≠ "processing")
    (hf : env.renderStatus ≠ "failed") :
    (n < 20 → auto_transfer_when_ready_job pfx bkt env n =
      .rescheduled (n + 1) (reschedule_delay (n + 1))) ∧
    (20 ≤ n → auto_transfer_when_ready_job pfx bkt env n =
      .failed "Unknown status after max attempts") := by
  have hmain : auto_transfer_when_ready_job pfx bkt env n =
      if n ≥ 20 then .failed "Unknown status after max attempts"
      else .rescheduled (n + 1) (reschedule_delay (n + 1)) := by
    unfold auto_transfer_when_ready_job
    rw [hid, hoj, hsc]
    simp [hdone, hq, hr, hp, hf]
  exact ⟨fun h => by rw [hmain, if_neg (by omega)],
         fun h => by rw [hmain, if_pos (by omega)]⟩

/-- Claim C6 witness: the amended behavior for the unrecognized status
`"exporting"` at attempts 2 and 20. -/
theorem unknown_status_retry_then_failed_witness :
    auto_transfer_when_ready_job "videos" "ffmpeg-api"
      ⟨some "r1", some "j1", "u1", 200, "exporting", some "url", false, false, false,
        ⟨"2025", "01", "t"⟩⟩ 2 = .rescheduled 3 30 ∧
    auto_transfer_when_ready_job "videos" "ffmpeg-api"
      ⟨some "r1", some "j1", "u1", 200, "exporting", some "url", false, false, false,
        ⟨"2025", "01", "t"⟩⟩ 20 = .failed "Unknown status after max attempts" :=
  ⟨((unknown_status_retry_then_failed "videos" "ffmpeg-api" _ 2 (by decide) (by decide)
      rfl (by decide) (by decide) (by decide) (by decide) (by decide)).1
      (by omega)).trans (by decide),
   (unknown_status_retry_then_failed "videos" "ffmpeg-api" _ 20 (by decide) (by decide)
      rfl (by decide) (by decide) (by decide) (by decide) (by decide)).2
      (by omega)⟩

/-! ## Claim C8 — ledger I/O errors vs insufficient funds -/

/-- Claim C8 counterexample: a store read error during consume (user
with balance 100) and an insufficient-funds rejection (balance 3,
amount 5) produce the identical caller-observable outcome `false`; the
caller cannot tell them apart. -/
theorem ledger_error_indistinguishable_cex :
    (consume_tokens ⟨true, .ok, .ok⟩ ⟨some 100, []⟩ 5).1 = false ∧
    (consume_tokens noFaults ⟨some 3, []⟩ 5).1 = false ∧
    (consume_tokens ⟨true, .ok, .ok⟩ ⟨some 100, []⟩ 5).1 =
      (consume_tokens noFaults ⟨some 3, []⟩ 5).1 := by
  refine ⟨?_, ?_, ?_⟩ <;> decide

/-- Claim C8 (amended): a store I/O error during consume yields the
same observable outcome `false` as insufficient funds, so callers
cannot distinguish the two.  No billing side effect is committed when
the balance read raises or when the balance update raises or returns
no data; however, when the transaction-record insert raises after a
successful balance update, consume returns `false` with the debit
already committed. -/
theorem ledger_error_semantics (s : TokenStore) (n : ℤ) (hn : 0 < n) :
    (∀ uo io : StoreOp, consume_tokens ⟨true, uo, io⟩ s n = (false, s)) ∧
    (∀ rr : Bool, ∀ io : StoreOp, consume_tokens ⟨rr, .raises, io⟩ s n = (false, s)) ∧
    (∀ rr : Bool, ∀ io : StoreOp, consume_tokens ⟨rr, .emptyData, io⟩ s n = (false, s)) ∧
    (∀ b : ℤ, ∀ t : List Txn, n ≤ b →
      consume_tokens ⟨false, .ok, .raises⟩ ⟨some b, t⟩ n = (false, ⟨some (b - n), t⟩)) := by
  refine ⟨fun uo io => ?_, fun rr io => ?_, fun rr io => ?_, fun b t hb => ?_⟩
  · simp [consume_tokens, get_user_tokens, hn]
  · by_cases h : get_user_tokens ⟨rr, .raises, io⟩ s < n <;>
      simp [consume_tokens, h]
  · by_cases h : get_user_tokens ⟨rr, .emptyData, io⟩ s < n <;>
      simp [consume_tokens, h]
  · have hlt : ¬(b < n) := by omega
    simp [consume_tokens, get_user_tokens, hlt]

/-- Claim C8 witness: the amended semantics at balance 100, amount 5:
a read error returns `false` with the store untouched, and an insert
error after the update returns `false` with the debit committed. -/
theorem ledger_error_semantics_witness :
    consume_tokens ⟨true, .ok, .ok⟩ ⟨some 100, []⟩ 5 = (false, ⟨some 100, []⟩) ∧
    consume_tokens ⟨false, .ok, .raises⟩ ⟨some 100, []⟩ 5 = (false, ⟨some 95, []⟩) :=
  ⟨(ledger_error_semantics ⟨some 100, []⟩ 5 (by decide)).1 .ok .ok,
   ((ledger_error_semantics ⟨some 100, []⟩ 5 (by decide)).2.2.2 100 [] (by decide)).trans
     (by norm_num)⟩

/-! ## Claim C1 — refund on worker failure restores the balance -/

/-- Claim C1: for a job that consumed `n` tokens from balance `b`
(recorded as `tokens_consumed = n` in the job payload), a worker
failure — non-201 render-engine response, timeout, or any exception
before a success response (including the local validation failure) —
refunds exactly `n`, so the final balance equals the balance before
the reservation, assuming fault-free store I/O for the refund. -/
theorem refund_restores_balance (b n : ℤ) (t : List Txn)
    (jd : JobData) (eo : EngineOutcome)
    (hn : n ≤ b) (hjd : jd.tokensConsumed = some n)
    (hfail : jd.hasTimeline = false ∨ jd.hasOutput = false ∨ engineFailed eo = true) :
    (consume_tokens noFaults ⟨some b, t⟩ n).1 = true ∧
    (render_video_job jd eo noFaults
      (consume_tokens noFaults ⟨some b, t⟩ n).2).1.status = "failed" ∧
    (render_video_job jd eo noFaults
      (consume_tokens noFaults ⟨some b, t⟩ n).2).2.balanceRow = some b := by
  have hc : consume_tokens noFaults ⟨some b, t⟩ n =
      (true, ⟨some (b - n), t ++ [⟨-n, "consumption", b, b - n⟩]⟩) := by
    simp [consume_tokens, get_user_tokens, noFaults, not_lt.mpr hn]
  have hw : ∀ s : TokenStore,
      render_video_job jd eo noFaults s = workerFailPath jd noFaults s := by
    intro s
    rcases hfail with h | h | h
    · simp [render_video_job, h]
    · simp [render_video_job, h]
    · unfold render_video_job
      by_cases hv : (¬jd.hasTimeline ∨ ¬jd.hasOutput)
      · rw [if_pos hv]
      · rw [if_neg hv]
        cases eo with
        | response code rid =>
          simp only [engineFailed, ne_eq, decide_eq_true_eq] at h
          simp [h]
        | timeoutExc => rfl
        | otherExc => rfl
  have hfp : (workerFailPath jd noFaults
        ⟨some (b - n), t ++ [⟨-n, "consumption", b, b - n⟩]⟩).2.balanceRow = some b ∧
      (workerFailPath jd noFaults
        ⟨some (b - n), t ++ [⟨-n, "consumption", b, b - n⟩]⟩).1.status = "failed" := by
    have hb : b - n + n = b := by ring
    simp [workerFailPath, refund_tokens_for_failed_job, add_tokens,
      get_user_tokens, noFaults, hjd, hb]
  rw [hc]
  refine ⟨rfl, ?_, ?_⟩ <;> rw [hw]
  · exact hfp.2
  · exact hfp.1

/-- Claim C1 witness: balance 5, job consuming 3 tokens, render engine
answering 400: the worker refunds 3 and the final balance is 5. -/
theorem refund_restores_balance_witness :
    (consume_tokens noFaults ⟨some 5, []⟩ 3).1 = true ∧
    (render_video_job ⟨true, true, "u1", some 3⟩ (.response 400 none) noFaults
      (consume_tokens noFaults ⟨some 5, []⟩ 3).2).1.status = "failed" ∧
    (render_video_job ⟨true, true, "u1", some 3⟩ (.response 400 none) noFaults
      (consume_tokens noFaults ⟨some 5, []⟩ 3).2).2.balanceRow = some 5 :=
  refund_restores_balance 5 3 [] ⟨true, true, "u1", some 3⟩ (.response 400 none)
    (by decide) rfl (Or.inr (Or.inr (by decide)))

/-! ## Claim C2 — idempotent submission vs duplicate billing -/

/-- One accepted `create_render` call whose job id is not yet queued:
the job is enqueued and the balance is debited. -/
theorem create_render_accepts (b n : ℤ) (t : List Txn) (userId jobId : String)
    (timeline : Timeline) (cd : Option (List Destination)) (q0 : Queue)
    (hn : calculate_tokens_for_duration (extract_total_duration timeline) = n)
    (hb : ¬(b < n))
    (hq : q0.jobs.any (fun k => k.jobId == jobId) = false) :
    create_render noFaults ⟨some b, t⟩ q0 userId jobId timeline cd =
      (.accepted jobId n,
       ⟨some (b - n), t ++ [⟨-n, "consumption", b, b - n⟩]⟩,
       ⟨q0.jobs ++ [⟨jobId, resolve_destinations cd userId jobId, n⟩]⟩) := by
  simp [create_render, get_user_tokens, noFaults, hn, hb, hq, enqueue_job,
    consume_tokens]

/-- One accepted `create_render` call whose job id is already queued:
the enqueue is collapsed by the idempotency key (its `none` result is
ignored by the code), yet the balance is debited again. -/
theorem create_render_accepts_dup (b n : ℤ) (t : List Txn) (userId jobId : String)
    (timeline : Timeline) (cd : Option (List Destination)) (q0 : Queue)
    (hn : calculate_tokens_for_duration (extract_total_duration timeline) = n)
    (hb : ¬(b < n))
    (hq : q0.jobs.any (fun k => k.jobId == jobId) = true) :
    create_render noFaults ⟨some b, t⟩ q0 userId jobId timeline cd =
      (.accepted jobId n,
       ⟨some (b - n), t ++ [⟨-n, "consumption", b, b - n⟩]⟩, q0) := by
  simp [create_render, get_user_tokens, noFaults, hn, hb, hq, enqueue_job,
    consume_tokens]

/-- Claim C2 counterexample: two submissions under the same job id
`"job1"` from balance 10 at 1 token each leave exactly one queued job
but a balance of 8 and two consumption transactions: billing is
performed twice. -/
theorem duplicate_submit_double_debit_cex :
    ((create_render noFaults
        (create_render noFaults ⟨some 10, []⟩ ⟨[]⟩ "u1" "job1" (.tracks []) none).2.1
        (create_render noFaults ⟨some 10, []⟩ ⟨[]⟩ "u1" "job1" (.tracks []) none).2.2
        "u1" "job1" (.tracks []) none).2.2).jobs.length = 1 ∧
    ((create_render noFaults
        (create_render noFaults ⟨some 10, []⟩ ⟨[]⟩ "u1" "job1" (.tracks []) none).2.1
        (create_render noFaults ⟨some 10, []⟩ ⟨[]⟩ "u1" "job1" (.tracks []) none).2.2
        "u1" "job1" (.tracks []) none).2.1).balanceRow = some 8 ∧
    ((create_render noFaults
        (create_render noFaults ⟨some 10, []⟩ ⟨[]⟩ "u1" "job1" (.tracks []) none).2.1
        (create_render noFaults ⟨some 10, []⟩ ⟨[]⟩ "u1" "job1" (.tracks []) none).2.2
        "u1" "job1" (.tracks []) none).2.1).txns.length = 2 := by
  have he : extract_total_duration (.tracks []) = 1 := by
    simp [extract_total_duration, buildAliases, tracksMax, pyInt]
  have hc : calculate_tokens_for_duration (extract_total_duration (.tracks [])) = 1 := by
    rw [he]
    simp only [calculate_tokens_for_duration]
    rw [show (⌈((1 : ℤ) : ℚ) / 60⌉ = 1) from Int.ceil_eq_iff.mpr (by norm_num)]
    norm_num
  have h1 : create_render noFaults ⟨some 10, []⟩ ⟨[]⟩ "u1" "job1" (.tracks []) none =
      (.accepted "job1" 1, ⟨some 9, [⟨-1, "consumption", 10, 9⟩]⟩,
       ⟨[⟨"job1", [{ provider := some "shotstack", exclude := false }], 1⟩]⟩) := by
    simp [create_render, get_user_tokens, noFaults, hc, enqueue_job, consume_tokens,
      resolve_destinations, get_default_destinations]
  have h2 : create_render noFaults ⟨some 9, [⟨-1, "consumption", 10, 9⟩]⟩
      ⟨[⟨"job1", [{ provider := some "shotstack", exclude := false }], 1⟩]⟩
      "u1" "job1" (.tracks []) none =
      (.accepted "job1" 1,
       ⟨some 8, [⟨-1, "consumption", 10, 9⟩, ⟨-1, "consumption", 9, 8⟩]⟩,
       ⟨[⟨"job1", [{ provider := some "shotstack", exclude := false }], 1⟩]⟩) := by
    simp [create_render, get_user_tokens, noFaults, hc, enqueue_job, consume_tokens,
      resolve_destinations, get_default_destinations]
  rw [h1]
  dsimp only
  rw [h2]
  exact ⟨rfl, rfl, rfl⟩

/-- Claim C2 (amended): re-enqueuing under an identifier that is
already queued yields exactly one additional queued job across the two
submissions, but *not* a single token consumption: `create_render`
ignores the enqueue result and debits the balance on every call, so
two submissions with the same identifier debit `2 n` from a balance of
`b`, leaving `b - 2 n`. -/
theorem duplicate_submit_one_job_two_debits (b n : ℤ) (t : List Txn)
    (userId jobId : String) (timeline : Timeline) (cd : Option (List Destination))
    (q0 : Queue)
    (hn : calculate_tokens_for_duration (extract_total_duration timeline) = n)
    (hb : 2 * n ≤ b)
    (hq : q0.jobs.any (fun k => k.jobId == jobId) = false) :
    ((create_render noFaults
        (create_render noFaults ⟨some b, t⟩ q0 userId jobId timeline cd).2.1
        (create_render noFaults ⟨some b, t⟩ q0 userId jobId timeline cd).2.2
        userId jobId timeline cd).2.2).jobs.length = q0.jobs.length + 1 ∧
    ((create_render noFaults
        (create_render noFaults ⟨some b, t⟩ q0 userId jobId timeline cd).2.1
        (create_render noFaults ⟨some b, t⟩ q0 userId jobId timeline cd).2.2
        userId jobId timeline cd).2.1).balanceRow = some (b - 2 * n) := by
  have h1n : 1 ≤ n := hn ▸ le_max_left 1 _
  have hb1 : ¬(b < n) := by omega
  have hb2 : ¬(b - n < n) := by omega
  rw [create_render_accepts b n t userId jobId timeline cd q0 hn hb1 hq]
  dsimp only
  have hq2 : ((⟨q0.jobs ++ [⟨jobId, resolve_destinations cd userId jobId, n⟩]⟩ :
      Queue).jobs.any (fun k => k.jobId == jobId)) = true := by
    simp
  rw [create_render_accepts_dup (b - n) n _ userId jobId timeline cd _ hn hb2 hq2]
  refine ⟨by simp, ?_⟩
  have : b - n - n = b - 2 * n := by ring
  rw [this]

/-- Claim C2 witness: the amended statement at balance 10, two
1-token submissions of the same job id into an empty queue: one
queued job, final balance 8. -/
theorem duplicate_submit_one_job_two_debits_witness :
    ((create_render noFaults
        (create_render noFaults ⟨some 10, []⟩ ⟨[]⟩ "u2" "jobW" (.tracks []) none).2.1
        (create_render noFaults ⟨some 10, []⟩ ⟨[]⟩ "u2" "jobW" (.tracks []) none).2.2
        "u2" "jobW" (.tracks []) none).2.2).jobs.length = 1 ∧
    ((create_render noFaults
        (create_render noFaults ⟨some 10, []⟩ ⟨[]⟩ "u2" "jobW" (.tracks []) none).2.1
        (create_render noFaults ⟨some 10, []⟩ ⟨[]⟩ "u2" "jobW" (.tracks []) none).2.2
        "u2" "jobW" (.tracks []) none).2.1).balanceRow = some 8 := by
  have h := duplicate_submit_one_job_two_debits 10 1 [] "u2" "jobW" (.tracks []) none ⟨[]⟩
    (by
      have he : extract_total_duration (.tracks []) = 1 := by
        simp [extract_total_duration, buildAliases, tracksMax, pyInt]
      rw [he]
      simp only [calculate_tokens_for_duration]
      rw [show (⌈((1 : ℤ) : ℚ) / 60⌉ = 1) from Int.ceil_eq_iff.mpr (by norm_num)]
      norm_num)
    (by omega) rfl
  exact ⟨h.1, h.2.trans (by norm_num)⟩

end ShotstackProxy
